import Mathlib

/-!
Verification of the directory-tree model of `TTkFileTreeWidget`
(`TermTk/TTkWidgets/TTkModelView/filetreewidget.py`).

The Python code is shallowly embedded: filesystem access (`os.scandir`,
`entry.stat`, `os.readlink`, `os.path.isdir` / `isfile` / `exists`) is a
record of pure functions, Python `OSError` is the `none` / `Option` case,
and a Python runtime error that escapes the routine (`UnboundLocalError`,
`AttributeError`) is an `Except.error`.
-/

/-- The theme colors used by the widget (`TTkCfg.theme.*` and
`TTkColor.RST`).  Only their identity matters for the model. -/
inductive Color where
  | fail
  | folder
  | link
  | file
  | exec
  | rst
deriving DecidableEq, Repr

/-- A `TTkString`: a sequence of colored text segments.  `TTkString() +
color + txt + color2 + txt2` builds `[(color, txt), (color2, txt2)]`. -/
abbrev TTkStr := List (Color × String)

/-- The plain text carried by a `TTkString`, colors erased. -/
def segText : TTkStr → String
  | [] => ""
  | (_, s) :: rest => s ++ segText rest

/-- The fields of `os.stat_result` read by the widget. -/
structure StatResult where
  st_mtime : Int
  st_size : Int
  st_mode : Nat
deriving DecidableEq, Repr

/-- An `os.DirEntry` as consumed by `_getItem`: `statResult = none` models
`entry.stat()` raising `OSError`; `is_dir` / `is_file` follow symlinks (a
broken link yields `false` for both); `readlinkResult` is the raw link
text returned by `os.readlink(entry.path)`. -/
structure DirEntry where
  name : String
  path : String
  statResult : Option StatResult
  is_dir : Bool
  is_file : Bool
  is_symlink : Bool
  readlinkResult : String
deriving DecidableEq, Repr

/-- What a path resolves to, as seen by `os.path.isdir` / `isfile` /
`exists` (which all follow symlinks, so the outcomes are mutually
exclusive). -/
inductive PathKind where
  | dir
  | file
  | other
  | missing
deriving DecidableEq, Repr

/-- The filesystem collaborator: path classification, `os.path.abspath`,
and `os.scandir` (whose `none` case models `OSError` raised while opening
or iterating the directory). -/
structure FileSystem where
  kindOf : String → PathKind
  abspath : String → String
  scandir : String → Option (List DirEntry)

/-- `os.path.exists`. -/
def FileSystem.pathExists (fs : FileSystem) (p : String) : Bool :=
  fs.kindOf p != PathKind.missing

/-- `os.path.isdir`. -/
def FileSystem.isdir (fs : FileSystem) (p : String) : Bool :=
  fs.kindOf p == PathKind.dir

/-- `os.path.isfile`. -/
def FileSystem.isfile (fs : FileSystem) (p : String) : Bool :=
  fs.kindOf p == PathKind.file

/-- Python runtime errors other than `OSError` that can escape
`_getItem`: referencing the unassigned locals `item_type` /
`item_indicator`, and reading `st.st_mode` when `st` is `None`. -/
inductive PyError where
  | unboundLocalError
  | attributeError
deriving DecidableEq, Repr

/-- `TTkFileTreeWidgetItem.DIR` / `TTkFileTreeWidgetItem.FILE` — the only
two values ever assigned to `item_type`. -/
inductive ItemType where
  | DIR
  | FILE
deriving DecidableEq, Repr

/-- `TTkK.ShowIndicator` / `TTkK.DontShowIndicator`. -/
inductive IndicatorPolicy where
  | showIndicator
  | dontShowIndicator
deriving DecidableEq, Repr

/-- A constructed `TTkFileTreeWidgetItem`: display columns
`[name, size, type, time]`, the `raw` tuple
`[entry.name, rawSize, ext, rawTime]`, plus path, type and child
indicator policy.  `hidden` is the filter flag kept by the item. -/
structure FileTreeItem where
  label : TTkStr
  size : String
  typef : String
  time : String
  rawName : String
  rawSize : Int
  rawExt : String
  rawTime : Int
  path : String
  type : ItemType
  childIndicatorPolicy : IndicatorPolicy
  hidden : Bool := false
deriving DecidableEq, Repr

/-- `os.sep` on the POSIX host. -/
def sep : String := "/"

/-- Python `s.rstrip(os.sep)`: remove every trailing separator. -/
def rstripSep (s : String) : String :=
  String.mk ((s.toList.reverse.dropWhile (· == '/')).reverse)

/-- Python `s.rfind(c)`: index of the last occurrence of `c`, `none` when
absent. -/
def strRfind (cs : List Char) (c : Char) : Option Nat :=
  match cs with
  | [] => none
  | a :: rest =>
    match strRfind rest c with
    | some i => some (i + 1)
    | none => if a == c then some 0 else none

/-- The extension part returned by `os.path.splitext` (CPython
`genericpath._splitext` with `sep='/'`, no altsep, `extsep='.'`): the
suffix from the last dot, unless every character between the last
separator and that dot is itself a dot (leading dots of the basename do
not start an extension). -/
def splitextExtension (cs : List Char) : List Char :=
  match strRfind cs '.' with
  | none => []
  | some di =>
    let filenameStart :=
      match strRfind cs '/' with
      | none => 0
      | some si => si + 1
    if di < filenameStart then []
    else if ((cs.drop filenameStart).take (di - filenameStart)).all (· == '.') then []
    else cs.drop di

/-- Lines 260–261: `_, ext = os.path.splitext(entry.name)` followed by
`if ext: ext = ext.lstrip(".")`. -/
def computeExt (name : String) : String :=
  let ext0 := splitextExtension name.toList
  if ext0.isEmpty then "" else String.mk (ext0.dropWhile (· == '.'))

/-- `_getTime`: empty for a falsy (zero) mtime, otherwise the host's
local-time `strftime`, abstracted as the parameter `tfmt`. -/
def getTime (tfmt : Int → String) (mtime : Int) : String :=
  if mtime == 0 then "" else tfmt mtime

/-- Python `f"{num/den:.2f}"` for the exact dyadic ratios used by
`_getSize`: round `num/den` to two decimals, ties to even. -/
def fmtF2 (num den : Nat) : String :=
  let m := num * 100
  let q := m / den
  let r := m % den
  let q2 :=
    if den < 2 * r then q + 1
    else if 2 * r < den then q
    else if q % 2 == 0 then q else q + 1
  toString (q2 / 100) ++ "." ++ (if q2 % 100 < 10 then "0" else "") ++ toString (q2 % 100)

/-- `_getSize` (lines 206–215). -/
def getSize (fsize : Int) : String :=
  if fsize ≤ 0 then ""
  else if 1024 * 1024 * 1024 < fsize then fmtF2 fsize.toNat (1024 * 1024 * 1024) ++ " GB"
  else if 1024 * 1024 < fsize then fmtF2 fsize.toNat (1024 * 1024) ++ " MB"
  else if 1024 < fsize then fmtF2 fsize.toNat 1024 ++ " KB"
  else toString fsize ++ " B"

/-- `stat.S_IXUSR | stat.S_IXGRP | stat.S_IXOTH` = 0o111. -/
def execMask : Nat := 73

/-- `_getItem` (lines 221–287).  The `except OSError` handler assigns
`typef="Broken"` and an error-colored name but then falls through into
the `is_dir` / `is_file` / `else` chain, which reassigns every one of
those locals on each path that reaches the item constructor; the handler
also leaves `item_type` / `item_indicator` unassigned, so the `else`
branch (entry neither directory nor file) dies with `UnboundLocalError`
at the constructor call, and the file branch dereferences `st.st_mode`
(line 263) and dies with `AttributeError` when `stat()` failed. -/
def getItem (tfmt : Int → String) (entry : DirEntry) : Except PyError FileTreeItem :=
  let st := entry.statResult
  if entry.is_dir then
    let rawTime : Int := match st with | some s => s.st_mtime | none => 0
    let time := getTime tfmt rawTime
    let rawSize : Int := -1
    let color := Color.folder
    let nameTypef : TTkStr × String :=
      if entry.is_symlink then
        ([(Color.link, entry.name ++ sep), (Color.rst, " -> "),
          (color, rstripSep entry.readlinkResult ++ sep)], "Folder Link")
      else
        ([(color, rstripSep entry.name ++ sep)], "Folder")
    Except.ok
      { label := nameTypef.1, size := "", typef := nameTypef.2, time := time,
        rawName := entry.name, rawSize := rawSize, rawExt := "", rawTime := rawTime,
        path := entry.path, type := ItemType.DIR,
        childIndicatorPolicy := IndicatorPolicy.showIndicator }
  else if entry.is_file then
    let rawTime : Int := match st with | some s => s.st_mtime | none => 0
    let time := getTime tfmt rawTime
    let rawSize : Int := match st with | some s => s.st_size | none => 0
    let size := getSize rawSize
    let ext := computeExt entry.name
    match st with
    | none => Except.error PyError.attributeError
    | some s =>
      let colorTypef : Color × String :=
        if s.st_mode &&& execMask != 0 then (Color.exec, "File (Exec)")
        else (Color.file, "File")
      let nameTypef : TTkStr × String :=
        if entry.is_symlink then
          ([(Color.link, entry.name), (Color.rst, " -> "),
            (colorTypef.1, entry.readlinkResult)], colorTypef.2 ++ " Link")
        else
          ([(colorTypef.1, entry.name)], colorTypef.2)
      Except.ok
        { label := nameTypef.1, size := size, typef := nameTypef.2, time := time,
          rawName := entry.name, rawSize := rawSize, rawExt := ext, rawTime := rawTime,
          path := entry.path, type := ItemType.FILE,
          childIndicatorPolicy := IndicatorPolicy.dontShowIndicator }
  else
    Except.error PyError.unboundLocalError

/-- `_getFileItems` (lines 202–300): `os.scandir` failure is absorbed
(`except OSError: pass`, empty result), but any non-`OSError` raised by
`_getItem` while iterating escapes to the caller and the partial result
is lost. -/
def getFileItems (tfmt : Int → String) (fs : FileSystem) (path : String) :
    Except PyError (List FileTreeItem) :=
  match fs.scandir (fs.abspath path) with
  | none => Except.ok []
  | some entries => entries.mapM (getItem tfmt)

/-- `TTkK.AscendingOrder` / `TTkK.DescendingOrder`. -/
inductive SortOrder where
  | ascending
  | descending
deriving DecidableEq, Repr

/-- A raw column value as stored in the item's `raw` tuple: the name and
extension columns hold strings, the size and time columns hold numbers.
(Python would raise `TypeError` on a cross-kind comparison; one never
occurs because all items supply the same kind for a given column.) -/
inductive SortValue where
  | str (s : String)
  | num (n : Int)
deriving DecidableEq, Repr

/-- `item.sortData(cn)`: the raw tuple `[entry.name, rawSize, ext,
rawTime]` indexed by column. -/
def FileTreeItem.sortData (item : FileTreeItem) (cn : Nat) : SortValue :=
  match cn with
  | 0 => SortValue.str item.rawName
  | 1 => SortValue.num item.rawSize
  | 2 => SortValue.str item.rawExt
  | _ => SortValue.num item.rawTime

/-- `_dirsTop` inside `sortKey` (lines 171–174): `isDir if descending
else (not isDir)`. -/
def dirsTop (order : SortOrder) (item : FileTreeItem) : Bool :=
  let isDir := item.type == ItemType.DIR
  if order == SortOrder.descending then isDir else !isDir

/-- `sortKey` (lines 169–177): `(_dirsTop(), sortData(sortColumn),
sortData(0))`. -/
def sortKey (order : SortOrder) (col : Nat) (item : FileTreeItem) :
    Bool × SortValue × SortValue :=
  (dirsTop order item, item.sortData col, item.sortData 0)

/-- Python `False < True`. -/
def boolLt (a b : Bool) : Bool := !a && b

/-- Python `<` on two raw column values of the same kind. -/
def svLt : SortValue → SortValue → Bool
  | SortValue.str a, SortValue.str b => a < b
  | SortValue.num a, SortValue.num b => a < b
  | _, _ => false

/-- Python lexicographic `<` on the 3-tuples produced by `sortKey`. -/
def keyLt : Bool × SortValue × SortValue → Bool × SortValue × SortValue → Bool
  | (b1, p1, s1), (b2, p2, s2) =>
    boolLt b1 b2 || (b1 == b2 && (svLt p1 p2 || (p1 == p2 && svLt s1 s2)))

/-- Stable insertion before the first strictly greater element (ties keep
arrival order), mirroring the stability of Python's `list.sort`. -/
def insertByLt (lt : FileTreeItem → FileTreeItem → Bool) (a : FileTreeItem) :
    List FileTreeItem → List FileTreeItem
  | [] => [a]
  | b :: bs => if lt a b then a :: b :: bs else b :: insertByLt lt a bs

/-- `sortItems(col, order, key=self.sortKey)`: stable sort by the key
tuple, descending realized by the flipped strict comparison (equal keys
keep their original order, as CPython's reverse sort does). -/
def sortItemsList (col : Nat) (order : SortOrder) (items : List FileTreeItem) :
    List FileTreeItem :=
  let lt : FileTreeItem → FileTreeItem → Bool :=
    match order with
    | SortOrder.ascending => fun a b => keyLt (sortKey order col a) (sortKey order col b)
    | SortOrder.descending => fun a b => keyLt (sortKey order col b) (sortKey order col a)
  items.foldl (fun acc a => insertByLt lt a acc) []

/-- Modelled from the spec: the host glob matcher used by the filter
(`fnmatch` semantics for `*` and `?`; spec §4 `setFilter` delegates
"case rules and wildcard semantics" to the host, and character classes
are out of scope). -/
def globMatch : List Char → List Char → Bool
  | [], [] => true
  | [], _ :: _ => false
  | '*' :: ps, cs =>
    globMatch ps cs ||
      (match cs with
       | [] => false
       | _ :: cs2 => globMatch ('*' :: ps) cs2)
  | '?' :: _, [] => false
  | '?' :: ps, _ :: cs => globMatch ps cs
  | _ :: _, [] => false
  | p :: ps, c :: cs => p == c && globMatch ps cs
termination_by ps cs => (ps.length, cs.length)

/-- Modelled from the spec: `TTkFileTreeWidgetItem._processFilter`
(defined outside this file) — "non-matching nodes are hidden (or marked)
without being removed from the tree", matching by glob against the raw
name (spec §4 `setFilter`). -/
def processFilter (pat : String) (item : FileTreeItem) : FileTreeItem :=
  { item with hidden := !globMatch pat.toList item.rawName.toList }

/-- The widget state touched by this file: `_path`, `_filter`, the
sorting configuration inherited from `TTkTreeWidget`, and the top-level
items. -/
structure WidgetState where
  path : String
  filter : String
  sortingEnabled : Bool
  sortColumn : Nat
  sortOrder : SortOrder
  topLevel : List FileTreeItem
deriving Repr

/-- `setFilter` (lines 179–182): store the pattern and reapply it to the
tree (modelled on the top-level items held in the state). -/
def setFilterState (pat : String) (w : WidgetState) : WidgetState :=
  { w with filter := pat, topLevel := w.topLevel.map (processFilter pat) }

/-- `openPath` (lines 187–200): no-op unless the path exists; otherwise
record the path, clear, rebuild the top level with sorting temporarily
disabled, reapply the filter, restore sorting and sort.  A non-`OSError`
escaping `_getFileItems` escapes `openPath` too. -/
def openPath (tfmt : Int → String) (fs : FileSystem) (w : WidgetState) (p : String) :
    Except PyError WidgetState :=
  if fs.pathExists p = false then Except.ok w
  else
    let w := { w with path := p }
    let isSorted := w.sortingEnabled
    let w := { w with sortingEnabled := false }
    let w := { w with topLevel := [] }
    match getFileItems tfmt fs p with
    | Except.error e => Except.error e
    | Except.ok items =>
      let w := { w with topLevel := items }
      let w := setFilterState w.filter w
      let w := { w with sortingEnabled := isSorted }
      Except.ok { w with topLevel := sortItemsList w.sortColumn w.sortOrder w.topLevel }

/-- `__init__` (lines 139–167): `_path` is recorded unconditionally,
`_filter` is `'*'`, sorting is enabled on column 0 (ascending is the
base-class default order, modelled from the spec), `sortItems` runs on
the still-empty tree, and only then `openPath(self._path)` is called. -/
def initWidget (tfmt : Int → String) (fs : FileSystem) (p : String) :
    Except PyError WidgetState :=
  let w0 : WidgetState :=
    { path := p, filter := "*", sortingEnabled := true,
      sortColumn := 0, sortOrder := SortOrder.ascending, topLevel := [] }
  let w1 := { w0 with topLevel := sortItemsList w0.sortColumn w0.sortOrder w0.topLevel }
  openPath tfmt fs w1 p

/-- `getOpenPath` (lines 184–185). -/
def getOpenPath (w : WidgetState) : String := w.path

/-- The expanded node as `_updateChildren` sees it: its path and its
current child items. -/
structure TreeNode where
  path : String
  childItems : List FileTreeItem
deriving DecidableEq, Repr

/-- `_updateChildren` (lines 302–310) together with the number of
filesystem listings it performs: `if item.children(): return` guards on
the child list being non-empty; otherwise the node's path is listed,
the children attached, the filter applied to each, and (when sorting is
enabled) the children sorted. -/
def updateChildren (tfmt : Int → String) (fs : FileSystem) (w : WidgetState)
    (node : TreeNode) : Except PyError (TreeNode × Nat) :=
  if node.childItems.isEmpty = false then Except.ok (node, 0)
  else
    match getFileItems tfmt fs node.path with
    | Except.error e => Except.error e
    | Except.ok children =>
      let children := children.map (processFilter w.filter)
      if w.sortingEnabled = false then
        Except.ok ({ node with childItems := children }, 1)
      else
        Except.ok ({ node with childItems := sortItemsList w.sortColumn w.sortOrder children }, 1)

/-- A signal emission of `_activated`. -/
inductive ActivationEvent where
  | folderActivated (item : FileTreeItem)
  | fileActivated (item : FileTreeItem)
deriving DecidableEq, Repr

/-- `_activated` (lines 312–318), as the list of emitted signals. -/
def activated (fs : FileSystem) (item : FileTreeItem) : List ActivationEvent :=
  let p := item.path
  if fs.isdir p then [ActivationEvent.folderActivated item]
  else if fs.isfile p then [ActivationEvent.fileActivated item]
  else []

/-- Number of `folderActivated` emissions in an event list. -/
def countFolderActivated (evs : List ActivationEvent) : Nat :=
  (evs.filter fun e => match e with
    | ActivationEvent.folderActivated _ => true
    | _ => false).length

/-- Number of `fileActivated` emissions in an event list. -/
def countFileActivated (evs : List ActivationEvent) : Nat :=
  (evs.filter fun e => match e with
    | ActivationEvent.fileActivated _ => true
    | _ => false).length

/-! ### Concrete fixtures -/

/-- A fixed local-time formatter, standing for the host `strftime`. -/
def tfmt0 : Int → String := fun _ => "1970-01-01 00:00:00"

/-- A healthy sub-directory entry. -/
def entryDirOk : DirEntry :=
  { name := "sub", path := "/d/sub", statResult := some ⟨100, 4096, 0o755⟩,
    is_dir := true, is_file := false, is_symlink := false, readlinkResult := "" }

/-- A broken symlink: `stat()` raises `FileNotFoundError` (an `OSError`),
and `is_dir()` / `is_file()` both report `false`. -/
def entryBrokenLink : DirEntry :=
  { name := "dead", path := "/d/dead", statResult := none,
    is_dir := false, is_file := false, is_symlink := true, readlinkResult := "gone" }

/-- A healthy regular file entry. -/
def entryFileOk : DirEntry :=
  { name := "a.txt", path := "/d/a.txt", statResult := some ⟨200, 512, 0o644⟩,
    is_dir := false, is_file := true, is_symlink := false, readlinkResult := "" }

/-- A filesystem whose directory `/d` lists a healthy directory, a broken
symlink, and a healthy file, in that order. -/
def fsListing : FileSystem :=
  { kindOf := fun _ => PathKind.dir, abspath := id,
    scandir := fun p => if p == "/d" then some [entryDirOk, entryBrokenLink, entryFileOk] else none }

/-- The item `_getItem` builds for `entryDirOk`. -/
def itemDirOk : FileTreeItem :=
  { label := [(Color.folder, "sub/")], size := "", typef := "Folder",
    time := "1970-01-01 00:00:00", rawName := "sub", rawSize := -1, rawExt := "",
    rawTime := 100, path := "/d/sub", type := ItemType.DIR,
    childIndicatorPolicy := IndicatorPolicy.showIndicator }

/-- A directory-typed item, for sort-key statements. -/
def itemD0 : FileTreeItem :=
  { label := [(Color.folder, "d/")], size := "", typef := "Folder", time := "",
    rawName := "d", rawSize := -1, rawExt := "", rawTime := 0, path := "/r/d",
    type := ItemType.DIR, childIndicatorPolicy := IndicatorPolicy.showIndicator }

/-- A file-typed item, for sort-key statements. -/
def itemF0 : FileTreeItem :=
  { label := [(Color.file, "f")], size := "512 B", typef := "File", time := "",
    rawName := "f", rawSize := 512, rawExt := "", rawTime := 0, path := "/r/f",
    type := ItemType.FILE, childIndicatorPolicy := IndicatorPolicy.dontShowIndicator }

/-- A filesystem with no paths at all (`os.path.exists` is false
everywhere). -/
def fsMissing : FileSystem :=
  { kindOf := fun _ => PathKind.missing, abspath := id, scandir := fun _ => none }

/-- A filesystem where every path is a directory. -/
def fsAllDirs : FileSystem :=
  { kindOf := fun _ => PathKind.dir, abspath := id, scandir := fun _ => none }

/-- A filesystem whose every directory is readable but empty. -/
def fsEmptyDir : FileSystem :=
  { kindOf := fun _ => PathKind.dir, abspath := id, scandir := fun _ => some [] }

/-- A widget state with an already-populated top level. -/
def wState0 : WidgetState :=
  { path := "/old", filter := "*", sortingEnabled := true, sortColumn := 0,
    sortOrder := SortOrder.ascending, topLevel := [itemD0, itemF0] }

/-! ### Claims -/

/-- C5: `_getSize` maps `n ≤ 0` to `""`, `n > 1 GiB` to `"%.2f GB"`,
else `n > 1 MiB` to `"%.2f MB"`, else `n > 1 KiB` to `"%.2f KB"`, else
`"%d B"`; in particular `0 → ""`, `512 → "512 B"`, `2048 → "2.00 KB"`,
`5*1024*1024 → "5.00 MB"`, `3*1024*1024*1024 → "3.00 GB"`. -/
theorem C5_getSize_spec (n : Int) :
    (n ≤ 0 → getSize n = "") ∧
    (1024 * 1024 * 1024 < n → getSize n = fmtF2 n.toNat (1024 * 1024 * 1024) ++ " GB") ∧
    (1024 * 1024 < n → n ≤ 1024 * 1024 * 1024 →
      getSize n = fmtF2 n.toNat (1024 * 1024) ++ " MB") ∧
    (1024 < n → n ≤ 1024 * 1024 → getSize n = fmtF2 n.toNat 1024 ++ " KB") ∧
    (0 < n → n ≤ 1024 → getSize n = toString n ++ " B") ∧
    getSize 0 = "" ∧ getSize 512 = "512 B" ∧ getSize 2048 = "2.00 KB" ∧
    getSize (5 * 1024 * 1024) = "5.00 MB" ∧
    getSize (3 * 1024 * 1024 * 1024) = "3.00 GB" := by
  refine ⟨?_, ?_, ?_, ?_, ?_, by decide, by decide, by decide, by decide, by decide⟩
  · intro h
    simp only [getSize]
    rw [if_pos h]
  · intro h
    have h0 : ¬ n ≤ 0 := by omega
    simp only [getSize]
    rw [if_neg h0, if_pos h]
  · intro h h1
    have h0 : ¬ n ≤ 0 := by omega
    have h2 : ¬ 1024 * 1024 * 1024 < n := by omega
    simp only [getSize]
    rw [if_neg h0, if_neg h2, if_pos h]
  · intro h h1
    have h0 : ¬ n ≤ 0 := by omega
    have h2 : ¬ 1024 * 1024 * 1024 < n := by omega
    have h3 : ¬ 1024 * 1024 < n := by omega
    simp only [getSize]
    rw [if_neg h0, if_neg h2, if_neg h3, if_pos h]
  · intro h h1
    have h0 : ¬ n ≤ 0 := by omega
    have h2 : ¬ 1024 * 1024 * 1024 < n := by omega
    have h3 : ¬ 1024 * 1024 < n := by omega
    have h4 : ¬ 1024 < n := by omega
    simp only [getSize]
    rw [if_neg h0, if_neg h2, if_neg h3, if_neg h4]

/-- Witness for C5 at `n = 2 GiB`. -/
theorem C5_getSize_spec_witness :
    getSize (2 * 1024 * 1024 * 1024) =
      fmtF2 (2 * 1024 * 1024 * 1024 : Int).toNat (1024 * 1024 * 1024) ++ " GB" :=
  (C5_getSize_spec (2 * 1024 * 1024 * 1024)).2.1 (by decide)

/-- C4: for every sort column, the sort key puts every directory item
strictly before every file item in key order when ascending, and
strictly after when descending, so the two groups never interleave. -/
theorem C4_sortKey_groups (order : SortOrder) (col : Nat) (a b : FileTreeItem)
    (ha : a.type = ItemType.DIR) (hb : b.type = ItemType.FILE) :
    (order = SortOrder.ascending → keyLt (sortKey order col a) (sortKey order col b) = true) ∧
    (order = SortOrder.descending → keyLt (sortKey order col b) (sortKey order col a) = true) := by
  constructor
  · intro h
    subst h
    simp [keyLt, sortKey, dirsTop, boolLt, ha, hb]
  · intro h
    subst h
    simp [keyLt, sortKey, dirsTop, boolLt, ha, hb]

/-- Witness for C4 on concrete items, column 3, ascending. -/
theorem C4_sortKey_groups_witness :
    keyLt (sortKey SortOrder.ascending 3 itemD0) (sortKey SortOrder.ascending 3 itemF0) = true :=
  (C4_sortKey_groups SortOrder.ascending 3 itemD0 itemF0 rfl rfl).1 rfl

/-- C6: `openPath` on a path that does not exist is a no-op: it returns
without error and leaves the whole prior widget state unchanged. -/
theorem C6_openPath_noop (tfmt : Int → String) (fs : FileSystem) (w : WidgetState)
    (p : String) (h : fs.pathExists p = false) :
    openPath tfmt fs w p = Except.ok w := by
  simp [openPath, h]

/-- Witness for C6 on a concrete populated state and missing path. -/
theorem C6_openPath_noop_witness :
    openPath tfmt0 fsMissing wState0 "/gone" = Except.ok wState0 :=
  C6_openPath_noop tfmt0 fsMissing wState0 "/gone" rfl

/-- C9: activating an item whose path is a directory emits exactly one
`folderActivated` and zero `fileActivated`; a regular-file path emits
exactly one `fileActivated` and zero `folderActivated`; a path that is
neither emits nothing. -/
theorem C9_activated_events (fs : FileSystem) (item : FileTreeItem) :
    (fs.isdir item.path = true →
      countFolderActivated (activated fs item) = 1 ∧
      countFileActivated (activated fs item) = 0) ∧
    (fs.isfile item.path = true →
      countFileActivated (activated fs item) = 1 ∧
      countFolderActivated (activated fs item) = 0) ∧
    (fs.isdir item.path = false → fs.isfile item.path = false →
      activated fs item = []) := by
  refine ⟨?_, ?_, ?_⟩
  · intro h
    simp [activated, h, countFolderActivated, countFileActivated]
  · intro h
    have hd : fs.isdir item.path = false := by
      simp [FileSystem.isfile] at h
      simp [FileSystem.isdir, h]
    simp [activated, hd, h, countFolderActivated, countFileActivated]
  · intro hd hf
    simp [activated, hd, hf]

/-- Witness for C9 on a directory path. -/
theorem C9_activated_events_witness :
    countFolderActivated (activated fsAllDirs itemD0) = 1 ∧
    countFileActivated (activated fsAllDirs itemD0) = 0 :=
  (C9_activated_events fsAllDirs itemD0).1 rfl

/-- C10: constructing the widget with a nonexistent path still records
that path — the resulting state carries the constructor path with an
empty tree, so `getOpenPath` returns the nonexistent path. -/
theorem C10_init_records_missing_path (tfmt : Int → String) (fs : FileSystem)
    (p : String) (h : fs.pathExists p = false) :
    initWidget tfmt fs p =
      Except.ok { path := p, filter := "*", sortingEnabled := true,
                  sortColumn := 0, sortOrder := SortOrder.ascending, topLevel := [] } ∧
    (initWidget tfmt fs p).map getOpenPath = Except.ok p := by
  have h1 : initWidget tfmt fs p =
      Except.ok { path := p, filter := "*", sortingEnabled := true,
                  sortColumn := 0, sortOrder := SortOrder.ascending, topLevel := [] } := by
    simp [initWidget, openPath, h, sortItemsList]
  exact ⟨h1, by rw [h1]; rfl⟩

/-- Witness for C10 on a concrete missing path. -/
theorem C10_init_records_missing_path_witness :
    initWidget tfmt0 fsMissing "/nope" =
      Except.ok { path := "/nope", filter := "*", sortingEnabled := true,
                  sortColumn := 0, sortOrder := SortOrder.ascending, topLevel := [] } ∧
    (initWidget tfmt0 fsMissing "/nope").map getOpenPath = Except.ok "/nope" :=
  C10_init_records_missing_path tfmt0 fsMissing "/nope" rfl

/-- C1: the claim says `_getFileItems` always returns a list and a
single entry's stat failure never aborts its siblings.  The code
violates it: the entry `entryBrokenLink` (stat fails, neither directory
nor regular file) reaches the `else` branch of `_getItem`, where the
item constructor references the never-assigned local `item_type`; the
resulting `UnboundLocalError` is not an `OSError`, so the `except
OSError` around the scandir loop does not catch it — the sibling
`entryFileOk` is never listed and the exception reaches the caller. -/
theorem C1_listing_aborts_on_broken_entry :
    getFileItems tfmt0 fsListing "/d" = Except.error PyError.unboundLocalError := rfl

/-- C2: no item returned by `_getItem` ever carries the type label
`"Broken"`: the `except OSError` handler's `typef = "Broken"` (and its
error-colored name) is dead, because the following `is_dir` /
`is_file` / `else` chain either reassigns `typef` or crashes before the
constructor.  On the canonical stat-failure input — a broken symlink —
the call crashes with `UnboundLocalError` instead of producing a
`Broken` item. -/
theorem C2_broken_label_unreachable :
    (∀ (tfmt : Int → String) (e : DirEntry) (item : FileTreeItem),
        getItem tfmt e = Except.ok item → item.typef ≠ "Broken") ∧
    getItem tfmt0 entryBrokenLink = Except.error PyError.unboundLocalError := by
  constructor
  · intro tfmt e item h
    obtain ⟨nm, pth, st, d, f, sl, rl⟩ := e
    cases d
    · cases f
      · simp [getItem] at h
      · cases st with
        | none => simp [getItem] at h
        | some s =>
          by_cases hx : s.st_mode &&& execMask != 0
          · cases sl
            · simp [getItem, hx] at h
              subst h
              simp
            · simp [getItem, hx] at h
              subst h
              simp
          · cases sl
            · simp [getItem, hx] at h
              subst h
              simp
            · simp [getItem, hx] at h
              subst h
              simp
    · cases sl
      · simp [getItem] at h
        subst h
        simp
      · simp [getItem] at h
        subst h
        simp
  · rfl

/-- Witness for C2's universal part, at a healthy directory entry. -/
theorem C2_broken_label_unreachable_witness : itemDirOk.typef ≠ "Broken" :=
  C2_broken_label_unreachable.1 tfmt0 entryDirOk itemDirOk rfl

/-- A node whose directory is empty. -/
def nodeEmpty : TreeNode := { path := "/e", childItems := [] }

/-- A node that already has a child. -/
def nodeLoaded : TreeNode := { path := "/d", childItems := [itemF0] }

/-- A default widget configuration for expansion statements. -/
def wDefault : WidgetState :=
  { path := "/d", filter := "*", sortingEnabled := true, sortColumn := 0,
    sortOrder := SortOrder.ascending, topLevel := [] }

/-- C3 counterexample: on a node whose directory is empty,
`_updateChildren` performs a filesystem listing (count 1) and leaves the
node's child list empty, so the guard `if item.children(): return` does
not fire on the next invocation either — the second call performs a
second listing (count 1 again, not 0), refuting "listed from the
filesystem exactly once" and "the second invocation is a no-op".  There
is also no loaded flag that could transition false→true. -/
theorem C3_counterexample :
    updateChildren tfmt0 fsEmptyDir wDefault nodeEmpty = Except.ok (nodeEmpty, 1) ∧
    (updateChildren tfmt0 fsEmptyDir wDefault nodeEmpty).bind
        (fun r => updateChildren tfmt0 fsEmptyDir wDefault r.1) =
      Except.ok (nodeEmpty, 1) :=
  ⟨rfl, rfl⟩

/-- C3 amended: `_updateChildren` is idempotent in the resulting child
set, and a node with a non-empty child list is never re-listed (the
call is a no-op); but the guard is the child list's non-emptiness, not
a once-only loaded flag, so a node whose listing comes back empty is
listed again on every invocation. -/
theorem C3_update_children_idempotent (tfmt : Int → String) (fs : FileSystem)
    (w : WidgetState) (n : TreeNode) :
    (n.childItems ≠ [] → updateChildren tfmt fs w n = Except.ok (n, 0)) ∧
    (∀ n1 c1, updateChildren tfmt fs w n = Except.ok (n1, c1) →
      c1 = (if n.childItems.isEmpty then 1 else 0)) ∧
    (∀ n1 c1 n2 c2, updateChildren tfmt fs w n = Except.ok (n1, c1) →
      updateChildren tfmt fs w n1 = Except.ok (n2, c2) →
      n2.childItems = n1.childItems) := by
  refine ⟨?_, ?_, ?_⟩
  · intro h
    have he : n.childItems.isEmpty = false := by
      cases hc : n.childItems with
      | nil => exact absurd hc h
      | cons a l => rfl
    simp [updateChildren, he]
  · intro n1 c1 h
    by_cases he : n.childItems.isEmpty = false
    · simp [updateChildren, he] at h
      simp [he, h.2]
    · have he2 : n.childItems.isEmpty = true := by
        cases hb : n.childItems.isEmpty
        · exact absurd hb he
        · rfl
      simp only [updateChildren, he2] at h
      simp only [Bool.true_eq_false, if_false] at h
      cases hfi : getFileItems tfmt fs n.path with
      | error e => rw [hfi] at h; cases h
      | ok children =>
        rw [hfi] at h
        simp only [] at h
        by_cases hse : w.sortingEnabled = false
        · rw [if_pos hse] at h
          cases h
          simp [he2]
        · rw [if_neg hse] at h
          cases h
          simp [he2]
  · intro n1 c1 n2 c2 h1 h2
    by_cases he : n.childItems.isEmpty = false
    · simp [updateChildren, he] at h1
      rw [← h1.1] at h2
      simp [updateChildren, he] at h2
      rw [← h2.1, h1.1]
    · have he2 : n.childItems.isEmpty = true := by
        cases hb : n.childItems.isEmpty
        · exact absurd hb he
        · rfl
      simp only [updateChildren, he2, Bool.true_eq_false, if_false] at h1
      cases hfi : getFileItems tfmt fs n.path with
      | error e => rw [hfi] at h1; cases h1
      | ok children =>
        rw [hfi] at h1
        simp only [] at h1
        by_cases hse : w.sortingEnabled = false
        · rw [if_pos hse] at h1
          cases h1
          by_cases hc : (children.map (processFilter w.filter)).isEmpty = false
          · simp [updateChildren, hc] at h2
            rw [← h2.1]
          · have hc2 : (children.map (processFilter w.filter)).isEmpty = true := by
              cases hb : (children.map (processFilter w.filter)).isEmpty
              · exact absurd hb hc
              · rfl
            simp only [updateChildren, hc2, Bool.true_eq_false, if_false] at h2
            rw [hfi] at h2
            simp only [] at h2
            rw [if_pos hse] at h2
            cases h2
            rfl
        · rw [if_neg hse] at h1
          cases h1
          by_cases hc :
              (sortItemsList w.sortColumn w.sortOrder
                (children.map (processFilter w.filter))).isEmpty = false
          · simp [updateChildren, hc] at h2
            rw [← h2.1]
          · have hc2 :
                (sortItemsList w.sortColumn w.sortOrder
                  (children.map (processFilter w.filter))).isEmpty = true := by
              cases hb :
                  (sortItemsList w.sortColumn w.sortOrder
                    (children.map (processFilter w.filter))).isEmpty
              · exact absurd hb hc
              · rfl
            simp only [updateChildren, hc2, Bool.true_eq_false, if_false] at h2
            rw [hfi] at h2
            simp only [] at h2
            rw [if_neg hse] at h2
            cases h2
            rfl

/-- Witness for C3's amended statement: an already-populated node is a
no-op with zero listings. -/
theorem C3_update_children_idempotent_witness :
    updateChildren tfmt0 fsEmptyDir wDefault nodeLoaded = Except.ok (nodeLoaded, 0) :=
  (C3_update_children_idempotent tfmt0 fsEmptyDir wDefault nodeLoaded).1 (by simp [nodeLoaded])

/-- A symlink-to-directory entry whose raw link text is `"t"`. -/
def entryDirLink : DirEntry :=
  { name := "ln", path := "/d/ln", statResult := some ⟨300, 0, 0o755⟩,
    is_dir := true, is_file := false, is_symlink := true, readlinkResult := "t" }

/-- C7 counterexample: the claim predicts the decorated display text
`"name -> target"` with the target's trailing separators stripped, i.e.
`"ln -> t"` for `entryDirLink`; the code instead renders
`"ln/ -> t/"`: it appends `os.sep` to the entry name and appends another
`os.sep` to the target after stripping (line 246). -/
theorem C7_counterexample :
    (getItem tfmt0 entryDirLink).map (fun i => segText i.label) = Except.ok "ln/ -> t/" ∧
    ("ln/ -> t/" : String) ≠
      entryDirLink.name ++ " -> " ++ rstripSep entryDirLink.readlinkResult := by
  constructor
  · rfl
  · intro heq
    have : ("ln/ -> t/" : String) = "ln -> t" := heq
    simp at this

/-- C7 amended: for a directory entry that is also a symlink, the
display text is `name ++ "/" ++ " -> " ++ target ++ "/"` where `target`
is the raw link text with all trailing separators stripped (one
separator is then re-appended), and the type label is `"Folder Link"`. -/
theorem C7_dir_symlink_decoration (tfmt : Int → String) (e : DirEntry)
    (hd : e.is_dir = true) (hs : e.is_symlink = true) :
    (getItem tfmt e).map (fun i => (segText i.label, i.typef)) =
      Except.ok (e.name ++ sep ++ (" -> " ++ (rstripSep e.readlinkResult ++ sep)),
                 "Folder Link") := by
  simp [getItem, hd, hs, segText, Except.map, String.append_empty, String.append_assoc]

/-- Witness for C7's amended statement at `entryDirLink`. -/
theorem C7_dir_symlink_decoration_witness :
    (getItem tfmt0 entryDirLink).map (fun i => (segText i.label, i.typef)) =
      Except.ok (entryDirLink.name ++ sep ++
                   (" -> " ++ (rstripSep entryDirLink.readlinkResult ++ sep)),
                 "Folder Link") :=
  C7_dir_symlink_decoration tfmt0 entryDirLink rfl rfl

/-- A regular file whose name has an upper-case extension. -/
def entryUpperExt : DirEntry :=
  { name := "A.TXT", path := "/d/A.TXT", statResult := some ⟨400, 10, 0o644⟩,
    is_dir := false, is_file := true, is_symlink := false, readlinkResult := "" }

/-- `strRfind` finds nothing when the character is absent. -/
theorem strRfind_eq_none {cs : List Char} {c : Char} (h : c ∉ cs) :
    strRfind cs c = none := by
  induction cs with
  | nil => rfl
  | cons a rest ih =>
    have h1 : c ∉ rest := fun hm => h (List.mem_cons_of_mem a hm)
    have h2 : ¬ a = c := fun he => h (he ▸ List.mem_cons_self a rest)
    unfold strRfind
    rw [ih h1]
    simp [h2]

/-- `strRfind` returning `none` means the character is absent. -/
theorem strRfind_none_not_mem {cs : List Char} {c : Char}
    (h : strRfind cs c = none) : c ∉ cs := by
  induction cs with
  | nil => simp
  | cons a rest ih =>
    unfold strRfind at h
    cases hr : strRfind rest c with
    | some j =>
      rw [hr] at h
      simp only [] at h
      exact Option.noConfusion h
    | none =>
      rw [hr] at h
      simp only [] at h
      by_cases hac : a == c
      · rw [if_pos hac] at h
        exact Option.noConfusion h
      · intro hm
        cases List.mem_cons.mp hm with
        | inl he => exact hac (by simp [he])
        | inr hm2 => exact ih hr hm2

/-- The last occurrence found by `strRfind` really holds the character. -/
theorem strRfind_drop {cs : List Char} {c : Char} {i : Nat}
    (h : strRfind cs c = some i) : cs.drop i = c :: cs.drop (i + 1) := by
  induction cs generalizing i with
  | nil => simp [strRfind] at h
  | cons a rest ih =>
    unfold strRfind at h
    cases hr : strRfind rest c with
    | some j =>
      rw [hr] at h
      simp only [] at h
      cases h
      simpa using ih hr
    | none =>
      rw [hr] at h
      simp only [] at h
      by_cases hac : a == c
      · rw [if_pos hac] at h
        cases h
        have hae : a = c := by simpa using hac
        simp [hae]
      · rw [if_neg hac] at h
        exact Option.noConfusion h

/-- Nothing after the position found by `strRfind` is the character. -/
theorem strRfind_not_mem_after {cs : List Char} {c : Char} {i : Nat}
    (h : strRfind cs c = some i) : c ∉ cs.drop (i + 1) := by
  induction cs generalizing i with
  | nil => simp [strRfind] at h
  | cons a rest ih =>
    unfold strRfind at h
    cases hr : strRfind rest c with
    | some j =>
      rw [hr] at h
      simp only [] at h
      cases h
      simpa using ih hr
    | none =>
      rw [hr] at h
      simp only [] at h
      by_cases hac : a == c
      · rw [if_pos hac] at h
        cases h
        simpa using strRfind_none_not_mem hr
      · rw [if_neg hac] at h
        exact Option.noConfusion h

/-- `dropWhile` strips nothing from a list that lacks the character. -/
theorem dropWhile_eq_self_no_dot {cs : List Char} (h : '.' ∉ cs) :
    cs.dropWhile (· == '.') = cs := by
  cases cs with
  | nil => rfl
  | cons a rest =>
    have ha : ¬ a = '.' := fun he => h (he ▸ List.mem_cons_self a rest)
    have ha2 : (a == '.') = false := by simp [ha]
    simp [List.dropWhile, ha2]

/-- The claim's extension rule minus the lowercasing it asserts: the
text after the last `'.'` of the entry name, empty when there is no dot
or when every character before the last dot is itself a dot (matching
`os.path.splitext` on a bare name). -/
def specExtAfterLastDot (cs : List Char) : String :=
  match strRfind cs '.' with
  | none => ""
  | some di =>
    if (cs.take di).all (· == '.') then "" else String.mk (cs.drop (di + 1))

/-- On a name without separators (every `os.scandir` entry name), the
code's `splitext` + `lstrip(".")` pipeline computes exactly the text
after the last dot, case preserved. -/
theorem computeExt_eq_specExt (s : String) (hns : '/' ∉ s.toList) :
    computeExt s = specExtAfterLastDot s.toList := by
  simp only [computeExt, specExtAfterLastDot, splitextExtension]
  cases hr : strRfind s.toList '.' with
  | none => simp
  | some di =>
    rw [strRfind_eq_none hns]
    simp only [List.drop_zero, Nat.sub_zero, if_neg (Nat.not_lt_zero di)]
    by_cases hall : (s.toList.take di).all (· == '.')
    · rw [if_pos hall, if_pos hall]
      simp
    · rw [if_neg hall, if_neg hall]
      rw [strRfind_drop hr]
      simp only [List.isEmpty_cons, if_neg]
      simp only [List.dropWhile]
      have : ('.' == '.') = true := rfl
      rw [this]
      exact congrArg String.mk (dropWhile_eq_self_no_dot (strRfind_not_mem_after hr))

/-- C8 counterexample: the claim says the stored raw extension is
lowercased.  For the file entry named `"A.TXT"` the code stores
`"TXT"` — `os.path.splitext` preserves case and no lowering is applied
— while the claim predicts `"txt"`. -/
theorem C8_counterexample :
    (getItem tfmt0 entryUpperExt).map FileTreeItem.rawExt = Except.ok "TXT" ∧
    ("TXT" : String) ≠ "txt" := by
  exact ⟨rfl, by decide⟩

/-- C8 amended: for every regular-file entry (stat successful, name free
of separators as scandir guarantees), the stored raw extension is the
text after the last `'.'` of the entry name with the leading dot
stripped and case preserved — not lowercased — and empty when the name
has no extension (no dot, or only leading dots before the last dot). -/
theorem C8_extension_case_preserved (tfmt : Int → String) (e : DirEntry) (s : StatResult)
    (hd : e.is_dir = false) (hf : e.is_file = true) (hst : e.statResult = some s)
    (hns : '/' ∉ e.name.toList) :
    (getItem tfmt e).map FileTreeItem.rawExt =
      Except.ok (specExtAfterLastDot e.name.toList) := by
  have hx := computeExt_eq_specExt e.name hns
  by_cases hb : s.st_mode &&& execMask != 0
  · by_cases hs : e.is_symlink = true
    · simp [getItem, hd, hf, hst, hb, hs, Except.map, hx]
    · simp [getItem, hd, hf, hst, hb, hs, Except.map, hx]
  · by_cases hs : e.is_symlink = true
    · simp [getItem, hd, hf, hst, hb, hs, Except.map, hx]
    · simp [getItem, hd, hf, hst, hb, hs, Except.map, hx]

/-- Witness for C8's amended statement at `entryFileOk` (`"a.txt"`). -/
theorem C8_extension_case_preserved_witness :
    (getItem tfmt0 entryFileOk).map FileTreeItem.rawExt =
      Except.ok (specExtAfterLastDot entryFileOk.name.toList) :=
  C8_extension_case_preserved tfmt0 entryFileOk ⟨200, 512, 0o644⟩ rfl rfl rfl (by decide)
